import Mathlib

/-!
Formal model of the ETL scripts in this repository:
* `2a.EL.py` — MSSQL → BigQuery straight-line script,
* `data-integration-methodologies/3a.ETL.py` — hardcoded data → BigQuery,
* `data-integration-methodologies/3b.ETL.py` — CSV → transform → BigQuery.

Python floats are modelled as rationals (`ℚ`), Python `round(x, 2)` as
decimal round-half-to-even at two places, and the wall clock as a stream
of timestamp strings indexed by the number of `utcnow()` calls made.
-/

/-- Model of Python `str.strip()`: remove leading and trailing whitespace. -/
def pyStrip (s : String) : String :=
  ⟨((s.data.dropWhile Char.isWhitespace).reverse.dropWhile Char.isWhitespace).reverse⟩

/-- Value of a nonempty all-digit character list, as Python `int` reads it. -/
def digitsToNat (cs : List Char) : Option Nat :=
  if cs ≠ [] ∧ cs.all Char.isDigit then
    some (cs.foldl (fun acc c => acc * 10 + (c.toNat - 48)) 0)
  else none

/-- Model of Python `int(s)`: strip whitespace, optional sign, decimal digits. -/
def pyInt (s : String) : Option Int :=
  match (pyStrip s).data with
  | '+' :: rest => (digitsToNat rest).map Int.ofNat
  | '-' :: rest => (digitsToNat rest).map (fun n => -(n : Int))
  | cs => (digitsToNat cs).map Int.ofNat

/-- Digits value with the empty list reading as 0 (used for `"5."` and `".5"`). -/
def digitsVal (cs : List Char) : Nat :=
  cs.foldl (fun acc c => acc * 10 + (c.toNat - 48)) 0

/-- The syntactic pieces of a Python float literal: sign, integer part,
fractional part with its digit count, and exponent. -/
structure FloatParts where
  neg : Bool
  ip : Nat
  fp : Nat
  fdigits : Nat
  exp : Int
deriving DecidableEq, Repr

/-- Parse the unsigned mantissa of a Python float literal: `digits`,
`digits.digits?`, or `.digits`; returns integer part, fractional part,
fractional digit count, and the unconsumed tail. -/
def parseMantissa (cs : List Char) : Option (Nat × Nat × Nat × List Char) :=
  let ip := cs.takeWhile Char.isDigit
  let rest := cs.dropWhile Char.isDigit
  match rest with
  | '.' :: rest2 =>
    let fp := rest2.takeWhile Char.isDigit
    let rest3 := rest2.dropWhile Char.isDigit
    if ip.isEmpty ∧ fp.isEmpty then none
    else some (digitsVal ip, digitsVal fp, fp.length, rest3)
  | _ => if ip.isEmpty then none else some (digitsVal ip, 0, 0, rest)

/-- Parse the signed exponent digits after `e`/`E` in a float literal. -/
def parseExponent (cs : List Char) : Option Int :=
  match cs with
  | '+' :: r => (digitsToNat r).map Int.ofNat
  | '-' :: r => (digitsToNat r).map (fun n => -(n : Int))
  | r => (digitsToNat r).map Int.ofNat

/-- Split a stripped Python float literal into its syntactic pieces. -/
def pyFloatParts (s : String) : Option FloatParts :=
  let core : Bool → List Char → Option FloatParts := fun neg cs =>
    match parseMantissa cs with
    | none => none
    | some (ip, fp, fd, rest) =>
      match rest with
      | [] => some ⟨neg, ip, fp, fd, 0⟩
      | 'e' :: ecs => (parseExponent ecs).map (fun e => ⟨neg, ip, fp, fd, e⟩)
      | 'E' :: ecs => (parseExponent ecs).map (fun e => ⟨neg, ip, fp, fd, e⟩)
      | _ => none
  match (pyStrip s).data with
  | '+' :: cs => core false cs
  | '-' :: cs => core true cs
  | cs => core false cs

/-- The rational value of a parsed float literal. -/
def partsVal (p : FloatParts) : ℚ :=
  (if p.neg then (-1 : ℚ) else 1) *
    ((p.ip : ℚ) + (p.fp : ℚ) / (10 : ℚ) ^ p.fdigits) * (10 : ℚ) ^ p.exp

/-- Model of Python `float(s)` on finite decimal literals: strip whitespace,
optional sign, decimal mantissa, optional exponent.  (`inf`/`nan` inputs are
modelled as parse failures; no claim concerns them.) -/
def pyFloat (s : String) : Option ℚ :=
  match pyFloatParts s with
  | none => none
  | some p => some (partsVal p)

/-- Round a rational to the nearest integer, ties to even (banker's rounding),
as Python `round` does. -/
def roundHalfEven (q : ℚ) : ℤ :=
  let f := ⌊q⌋
  let frac := q - (f : ℚ)
  if frac < 1 / 2 then f
  else if 1 / 2 < frac then f + 1
  else if f % 2 = 0 then f else f + 1

/-- Model of Python `round(x, 2)`. -/
def round2 (q : ℚ) : ℚ := (roundHalfEven (q * 100) : ℚ) / 100

/-- Model of Python `str.title()`: the first letter of each maximal run of
alphabetic characters is uppercased, the rest lowercased. -/
def pyTitleAux : List Char → Bool → List Char
  | [], _ => []
  | c :: cs, prevAlpha =>
    if c.isAlpha then
      (if prevAlpha then c.toLower else c.toUpper) :: pyTitleAux cs true
    else c :: pyTitleAux cs false

/-- Model of Python `str.title()`. -/
def pyTitle (s : String) : String := ⟨pyTitleAux s.data false⟩

/-- A calendar date as produced by `datetime.strptime(s, "%Y-%m-%d").date()`. -/
structure PyDate where
  year : Nat
  month : Nat
  day : Nat
deriving DecidableEq, Repr

/-- Gregorian leap-year rule used by `datetime.date`. -/
def pyIsLeap (y : Nat) : Bool :=
  y % 4 = 0 && (y % 100 ≠ 0 || y % 400 = 0)

/-- Days in a month per `datetime.date` validation. -/
def pyDaysInMonth (y m : Nat) : Nat :=
  if m = 2 then (if pyIsLeap y then 29 else 28)
  else if m = 4 ∨ m = 6 ∨ m = 9 ∨ m = 11 then 30
  else 31

/-- Split a character list on `-` separators. -/
def splitDash : List Char → List (List Char)
  | [] => [[]]
  | c :: rest =>
    if c = '-' then [] :: splitDash rest
    else
      match splitDash rest with
      | [] => [[c]]
      | g :: gs => (c :: g) :: gs

/-- Model of `datetime.strptime(s, "%Y-%m-%d").date()`: a four-digit year,
a one- or two-digit month and day, all digits, no leftover text, and the
resulting triple a valid calendar date (CPython accepts exactly four digits
for `%Y` and one or two digits for `%m`/`%d`, then validates ranges). -/
def parseDate (s : String) : Option PyDate :=
  match splitDash s.data with
  | [ys, ms, ds] =>
    if ys.length = 4 ∧ ys.all Char.isDigit ∧
       (ms.length = 1 ∨ ms.length = 2) ∧ ms.all Char.isDigit ∧
       (ds.length = 1 ∨ ds.length = 2) ∧ ds.all Char.isDigit then
      let y := digitsVal ys
      let m := digitsVal ms
      let d := digitsVal ds
      if 1 ≤ y ∧ 1 ≤ m ∧ m ≤ 12 ∧ 1 ≤ d ∧ d ≤ pyDaysInMonth y m then
        some ⟨y, m, d⟩
      else none
    else none
  | _ => none

/-- Left-pad a number to two digits, as `date.isoformat` prints months/days. -/
def pad2 (n : Nat) : String :=
  if n < 10 then "0" ++ toString n else toString n

/-- Left-pad a number to four digits, as `date.isoformat` prints years. -/
def pad4 (n : Nat) : String :=
  if n < 10 then "000" ++ toString n
  else if n < 100 then "00" ++ toString n
  else if n < 1000 then "0" ++ toString n
  else toString n

/-- Model of `date.isoformat()`. -/
def isoformat (d : PyDate) : String :=
  pad4 d.year ++ "-" ++ pad2 d.month ++ "-" ++ pad2 d.day

/-- A raw CSV row as `csv.DictReader` yields it: each field may be absent;
`transform_sales_data` reads exactly these six keys via `row.get`. -/
structure RawRecord where
  order_id : Option String
  customer_name : Option String
  product : Option String
  quantity : Option String
  price : Option String
  order_date : Option String
deriving DecidableEq, Repr

/-- An output record of `transform_sales_data` (3b.ETL.py, lines 49-60). -/
structure Enriched where
  order_id : String
  customer : String
  product : String
  quantity : Int
  price : ℚ
  order_date : String
  total_amount : ℚ
  discount_rate : ℚ
  final_amount : ℚ
  category : String
deriving DecidableEq, Repr

/-- The metric-calculation tail of the loop body of `transform_sales_data`
(3b.ETL.py, lines 41-60), reached only for rows that passed validation. -/
def enrichRow (row : RawRecord) (quantity : Int) (price : ℚ)
    (order_date : PyDate) : Enriched :=
  let total_amount := round2 ((quantity : ℚ) * price)
  let discount : ℚ := if total_amount > 1000 then 1 / 10 else 0
  let final_amount := round2 (total_amount * (1 - discount))
  let category := if final_amount ≥ 500 then "High Value" else "Standard"
  { order_id := pyStrip (row.order_id.getD ""),
    customer := pyTitle (pyStrip (row.customer_name.getD "Unknown")),
    product := pyStrip (row.product.getD ""),
    quantity := quantity, price := price,
    order_date := isoformat order_date,
    total_amount := total_amount, discount_rate := discount,
    final_amount := final_amount, category := category }

/-- The per-row body of the loop in `transform_sales_data`
(3b.ETL.py, lines 23-63): parse fields, skip invalid rows (validation
failure or a `ValueError` from `int`/`float`/`strptime`), and compute the
derived fields for accepted rows. -/
def transformRow (row : RawRecord) : Option Enriched :=
  let oid := pyStrip (row.order_id.getD "")
  match pyInt (row.quantity.getD "0") with
  | none => none
  | some quantity =>
    match pyFloat (row.price.getD "0") with
    | none => none
    | some price =>
      let order_date_str := pyStrip (row.order_date.getD "")
      if oid = "" ∨ quantity ≤ 0 ∨ price ≤ 0 then none
      else
        match parseDate order_date_str with
        | none => none
        | some order_date => some (enrichRow row quantity price order_date)

/-- `transform_sales_data` (3b.ETL.py, lines 18-66): each row is processed
independently; skipped rows contribute nothing, accepted rows are appended
in input order. -/
def transform_sales_data (raw_data : List RawRecord) : List Enriched :=
  raw_data.filterMap transformRow

/-- The six sample rows written by the main block of 3b.ETL.py
(lines 174-187). -/
def sample_rows : List RawRecord :=
  [⟨some "ORD001", some "john doe", some "Laptop", some "2", some "899.99", some "2026-02-15"⟩,
   ⟨some "ORD002", some "JANE SMITH", some "Mouse", some "5", some "25.50", some "2026-02-16"⟩,
   ⟨some "ORD003", some "alice brown", some "Monitor", some "3", some "450.00", some "2026-02-17"⟩,
   ⟨some "ORD004", some "bob wilson", some "Keyboard", some "10", some "75.00", some "2026-02-18"⟩,
   ⟨some "ORD005", some "john doe", some "Desk", some "1", some "599.99", some "2026-02-20"⟩,
   ⟨some "INVALID", some "test", some "Bad", some "-1", some "0", some "2026-02-21"⟩]

/-- Expected enriched record for sample row ORD001. -/
def enriched_ord1 : Enriched :=
  ⟨"ORD001", "John Doe", "Laptop", 2, 89999 / 100, "2026-02-15",
    1799.98, 0.10, 1619.98, "High Value"⟩

/-- Expected enriched record for sample row ORD002. -/
def enriched_ord2 : Enriched :=
  ⟨"ORD002", "Jane Smith", "Mouse", 5, 51 / 2, "2026-02-16",
    127.50, 0, 127.50, "Standard"⟩

/-- Expected enriched record for sample row ORD003. -/
def enriched_ord3 : Enriched :=
  ⟨"ORD003", "Alice Brown", "Monitor", 3, 450, "2026-02-17",
    1350, 0.10, 1215, "High Value"⟩

/-- Expected enriched record for sample row ORD004. -/
def enriched_ord4 : Enriched :=
  ⟨"ORD004", "Bob Wilson", "Keyboard", 10, 75, "2026-02-18",
    750, 0, 750, "High Value"⟩

/-- Expected enriched record for sample row ORD005. -/
def enriched_ord5 : Enriched :=
  ⟨"ORD005", "John Doe", "Desk", 1, 59999 / 100, "2026-02-20",
    599.99, 0, 599.99, "High Value"⟩

/-- A row as it sits in the destination table: an enriched record plus the
`loaded_at` stamp added in the load stage (3b.ETL.py, lines 112-115). -/
structure LoadedRecord where
  record : Enriched
  loaded_at : String
deriving DecidableEq, Repr

/-- The observable state of the BigQuery destination: which datasets and
tables exist, and the contents of the sales table (append-only). -/
structure BQState where
  datasets : Finset String
  tables : Finset (String × String)
  rows : List LoadedRecord
deriving DecidableEq

/-- BigQuery metadata errors: `NotFound` on a lookup, `Conflict` when
creating a resource that already exists. -/
inductive BQErr where
  | notFound
  | alreadyExists
deriving DecidableEq, Repr

/-- `client.get_dataset` (3b.ETL.py, line 79): raises `NotFound` when the
dataset does not exist. -/
def get_dataset (st : BQState) (d : String) : Except BQErr Unit :=
  if d ∈ st.datasets then .ok () else .error .notFound

/-- `client.create_dataset` (3b.ETL.py, line 84): adds the dataset; the real
service raises `Conflict` when it already exists. -/
def create_dataset (st : BQState) (d : String) : Except BQErr BQState :=
  if d ∈ st.datasets then .error .alreadyExists
  else .ok { st with datasets := insert d st.datasets }

/-- The dataset-ensuring step of `load_to_bigquery` (3b.ETL.py, lines 76-85):
try `get_dataset`; on `NotFound`, create it. -/
def ensure_dataset (st : BQState) (d : String) : Except BQErr BQState :=
  match get_dataset st d with
  | .ok _ => .ok st
  | .error _ => create_dataset st d

/-- `client.get_table` (3b.ETL.py, line 105). -/
def get_table (st : BQState) (d t : String) : Except BQErr Unit :=
  if (d, t) ∈ st.tables then .ok () else .error .notFound

/-- `client.create_table` (3b.ETL.py, line 109). -/
def create_table (st : BQState) (d t : String) : Except BQErr BQState :=
  if (d, t) ∈ st.tables then .error .alreadyExists
  else .ok { st with tables := insert (d, t) st.tables }

/-- The table-ensuring step of `load_to_bigquery` (3b.ETL.py, lines 102-110). -/
def ensure_table (st : BQState) (d t : String) : Except BQErr BQState :=
  match get_table st d t with
  | .ok _ => .ok st
  | .error _ => create_table st d t

/-- The two metadata steps of `load_to_bigquery` run in source order:
ensure the dataset, then ensure the table. -/
def ensure_dataset_and_table (st : BQState) (d t : String) : Except BQErr BQState :=
  match ensure_dataset st d with
  | .error e => .error e
  | .ok st1 => ensure_table st1 d t

/-- The batch-stamping loop of `load_to_bigquery` (3b.ETL.py, lines 112-115):
one `loaded_at` value is computed before the loop and written into every row. -/
def stamp_batch (data : List Enriched) (loaded_at : String) : List LoadedRecord :=
  data.map (fun r => ⟨r, loaded_at⟩)

/-- How a run of `load_to_bigquery` can fail. -/
inductive RunErr where
  | metadata
  | loadJob
  | report
deriving DecidableEq, Repr

/-- `load_to_bigquery` (3b.ETL.py, lines 69-146): ensure dataset and table,
stamp the batch with a single `utcnow()` reading, submit the append job and
wait for it, then run the verification/report query.  The wall clock is the
stream `clock`; `jobOutcome` and `queryOutcome` are the remote outcomes of
the append job and of the report query.  The returned pair is the final
destination state together with the run's outcome; an exception anywhere
aborts the run but leaves the destination state as it stands. -/
def load_to_bigquery (st : BQState) (data : List Enriched) (d t : String)
    (clock : Nat → String) (jobOutcome : Except Unit Unit)
    (queryOutcome : Except Unit Unit) : BQState × Except RunErr Unit :=
  match ensure_dataset_and_table st d t with
  | .error _ => (st, .error .metadata)
  | .ok st1 =>
    let loaded_at := clock 0
    let stamped := stamp_batch data loaded_at
    match jobOutcome with
    | .error _ => (st1, .error .loadJob)
    | .ok _ =>
      let st2 := { st1 with rows := st1.rows ++ stamped }
      match queryOutcome with
      | .error _ => (st2, .error .report)
      | .ok _ => (st2, .ok ())

/-- A hardcoded sales row of 3a.ETL.py (lines 10-14). -/
structure SaleRow3a where
  order_id : String
  customer : String
  amount : ℚ
deriving DecidableEq, Repr

/-- A 3a row after its transform step added `loaded_at`. -/
structure StampedRow3a where
  order_id : String
  customer : String
  amount : ℚ
  loaded_at : String
deriving DecidableEq, Repr

/-- The hardcoded sample data of `etl_to_bigquery` (3a.ETL.py, lines 10-14). -/
def sales_data_3a : List SaleRow3a :=
  [⟨"ORD001", "Alice", 150⟩, ⟨"ORD002", "Bob", 401 / 2⟩, ⟨"ORD003", "Alice", 301 / 4⟩]

/-- The transform loop of `etl_to_bigquery` (3a.ETL.py, lines 16-18): each
iteration calls `datetime.utcnow()` afresh, so row `i` receives the clock
reading numbered `k + i`. -/
def stamp_rows_3a : List SaleRow3a → (Nat → String) → Nat → List StampedRow3a
  | [], _, _ => []
  | r :: rs, clock, k =>
    ⟨r.order_id, r.customer, r.amount, clock k⟩ :: stamp_rows_3a rs clock (k + 1)

/-- `extract_sales_data` (3b.ETL.py, lines 8-15): `with open(...)` acquires a
file handle, the body reads the rows (which may raise), and the handle is
released when the block exits on either path.  `handles` counts open
handles; `readResult` is the outcome of reading the file. -/
def extract_sales_data (readResult : Except Unit (List RawRecord))
    (handles : Nat) : Except Unit (List RawRecord) × Nat :=
  let opened := handles + 1
  match readResult with
  | .ok data => (.ok data, opened - 1)
  | .error e => (.error e, opened - 1)

/-- The extraction section of 2a.EL.py (lines 26-36): `conn = pyodbc.connect`
opens a connection, `pd.read_sql` may raise, and `conn.close()` is the next
statement — it only runs when the read succeeds, since no `try`/`finally` or
`with` block guards it.  `conns` counts open connections. -/
def extract_2a (readResult : Except Unit Unit) (conns : Nat) :
    Except Unit Unit × Nat :=
  let opened := conns + 1
  match readResult with
  | .ok df => (.ok df, opened - 1)
  | .error e => (.error e, opened)

/-- Any output of `transformRow` has its derived fields internally consistent
with the formulas of the metric-calculation step. -/
lemma transformRow_some_shape (row : RawRecord) (e : Enriched)
    (h : transformRow row = some e) :
    e.total_amount = round2 ((e.quantity : ℚ) * e.price) ∧
    e.discount_rate = (if e.total_amount > 1000 then (1 : ℚ) / 10 else 0) ∧
    e.final_amount = round2 (e.total_amount * (1 - e.discount_rate)) ∧
    e.category = (if e.final_amount ≥ 500 then "High Value" else "Standard") := by
  unfold transformRow at h
  dsimp only at h
  split at h
  · exact absurd h (by simp)
  · split at h
    · exact absurd h (by simp)
    · split at h
      · exact absurd h (by simp)
      · split at h
        · exact absurd h (by simp)
        · injection h with h
          subst h
          exact ⟨rfl, rfl, rfl, rfl⟩

/-- A row whose `order_id` is nonempty after stripping, whose `quantity`
parses to a positive integer, whose `price` parses to a positive rational,
and whose `order_date` parses, is accepted by `transformRow` and mapped to
`enrichRow`. -/
lemma transformRow_accepts (row : RawRecord) (q : ℤ) (p : ℚ) (dt : PyDate)
    (hq : pyInt (row.quantity.getD "0") = some q) (hq0 : 0 < q)
    (hp : pyFloat (row.price.getD "0") = some p) (hp0 : 0 < p)
    (hid : pyStrip (row.order_id.getD "") ≠ "")
    (hd : parseDate (pyStrip (row.order_date.getD "")) = some dt) :
    transformRow row = some (enrichRow row q p dt) := by
  have hcond : ¬(pyStrip (row.order_id.getD "") = "" ∨ q ≤ 0 ∨ p ≤ 0) := by
    push_neg
    exact ⟨hid, hq0, hp0⟩
  unfold transformRow
  dsimp only
  rw [hq, hp]
  dsimp only
  rw [if_neg hcond, hd]

/-- A row meeting any of the rejection conditions of the transform's loop
body is skipped. -/
lemma transformRow_rejects (row : RawRecord)
    (h : pyStrip (row.order_id.getD "") = "" ∨
         pyInt (row.quantity.getD "0") = none ∨
         (∃ q, pyInt (row.quantity.getD "0") = some q ∧ q ≤ 0) ∨
         pyFloat (row.price.getD "0") = none ∨
         (∃ p, pyFloat (row.price.getD "0") = some p ∧ p ≤ 0) ∨
         parseDate (pyStrip (row.order_date.getD "")) = none) :
    transformRow row = none := by
  unfold transformRow
  dsimp only
  split
  · rfl
  · rename_i q hq
    split
    · rfl
    · rename_i p hp
      split
      · rfl
      · rename_i hcond
        split
        · rfl
        · rename_i dt hdt
          exfalso
          rcases h with h | h | ⟨q2, hq2, hq20⟩ | h | ⟨p2, hp2, hp20⟩ | h
          · exact hcond (Or.inl h)
          · rw [h] at hq
            exact Option.noConfusion hq
          · rw [hq] at hq2
            injection hq2 with e
            subst e
            exact hcond (Or.inr (Or.inl hq20))
          · rw [h] at hp
            exact Option.noConfusion hp
          · rw [hp] at hp2
            injection hp2 with e
            subst e
            exact hcond (Or.inr (Or.inr hp20))
          · rw [h] at hdt
            exact Option.noConfusion hdt

/-- The output of the transform keeps exactly the accepted rows: its length
plus the number of skipped rows is the input length. -/
lemma transform_length_add (raw : List RawRecord) :
    (transform_sales_data raw).length +
      raw.countP (fun r => (transformRow r).isNone) = raw.length := by
  induction raw with
  | nil => rfl
  | cons r rs ih =>
    unfold transform_sales_data at ih ⊢
    rw [List.filterMap_cons, List.countP_cons]
    cases htr : transformRow r <;> simp [htr] <;> omega

/-- Evaluation helper: `pyFloat` through its parsed pieces. -/
lemma pyFloat_eval (s : String) (pr : FloatParts)
    (h : pyFloatParts s = some pr) : pyFloat s = some (partsVal pr) := by
  unfold pyFloat
  rw [h]

/-- Evaluation helper for `round2` when the scaled value rounds down. -/
lemma round2_eq_of_floor (q : ℚ) (n : ℤ) (h1 : (n : ℚ) ≤ q * 100)
    (h2 : q * 100 - (n : ℚ) < 1 / 2) : round2 q = (n : ℚ) / 100 := by
  have hfl : ⌊q * 100⌋ = n := by
    rw [Int.floor_eq_iff]
    refine ⟨h1, ?_⟩
    linarith
  unfold round2 roundHalfEven
  dsimp only
  rw [hfl, if_pos]
  linarith

/-- Evaluation helper: `enrichRow` with each derived field computed. -/
lemma enrichRow_eval (row : RawRecord) (q : ℤ) (p : ℚ) (dt : PyDate)
    (oid cust prod datestr : String) (t dr f : ℚ) (cat : String)
    (hoid : pyStrip (row.order_id.getD "") = oid)
    (hcust : pyTitle (pyStrip (row.customer_name.getD "Unknown")) = cust)
    (hprod : pyStrip (row.product.getD "") = prod)
    (hdate : isoformat dt = datestr)
    (ht : round2 ((q : ℚ) * p) = t)
    (hdr : (if t > 1000 then (1 : ℚ) / 10 else 0) = dr)
    (hf : round2 (t * (1 - dr)) = f)
    (hcat : (if f ≥ 500 then "High Value" else "Standard") = cat) :
    enrichRow row q p dt = ⟨oid, cust, prod, q, p, datestr, t, dr, f, cat⟩ := by
  subst hoid hcust hprod hdate ht hdr hf hcat
  rfl

/-- Evaluation: `float("899.99")`. -/
lemma pyFloat_899_99 : pyFloat "899.99" = some (89999 / 100) := by
  rw [pyFloat_eval "899.99" ⟨false, 899, 99, 2, 0⟩ (by decide)]
  norm_num [partsVal]

/-- Evaluation: `float("25.50")`. -/
lemma pyFloat_25_50 : pyFloat "25.50" = some (51 / 2) := by
  rw [pyFloat_eval "25.50" ⟨false, 25, 50, 2, 0⟩ (by decide)]
  norm_num [partsVal]

/-- Evaluation: `float("450.00")`. -/
lemma pyFloat_450_00 : pyFloat "450.00" = some 450 := by
  rw [pyFloat_eval "450.00" ⟨false, 450, 0, 2, 0⟩ (by decide)]
  norm_num [partsVal]

/-- Evaluation: `float("75.00")`. -/
lemma pyFloat_75_00 : pyFloat "75.00" = some 75 := by
  rw [pyFloat_eval "75.00" ⟨false, 75, 0, 2, 0⟩ (by decide)]
  norm_num [partsVal]

/-- Evaluation: `float("599.99")`. -/
lemma pyFloat_599_99 : pyFloat "599.99" = some (59999 / 100) := by
  rw [pyFloat_eval "599.99" ⟨false, 599, 99, 2, 0⟩ (by decide)]
  norm_num [partsVal]

/-- Evaluation: `float("0")`. -/
lemma pyFloat_zero : pyFloat "0" = some 0 := by
  rw [pyFloat_eval "0" ⟨false, 0, 0, 0, 0⟩ (by decide)]
  norm_num [partsVal]

/-- Evaluation of the transform on sample row ORD001. -/
lemma transformRow_ord1 :
    transformRow ⟨some "ORD001", some "john doe", some "Laptop",
      some "2", some "899.99", some "2026-02-15"⟩ = some enriched_ord1 := by
  have ht : round2 (((2 : ℤ) : ℚ) * (89999 / 100)) = 1799.98 := by
    rw [round2_eq_of_floor _ 179998 (by norm_num) (by norm_num)]
    norm_num
  have hdr : (if (1799.98 : ℚ) > 1000 then (1 : ℚ) / 10 else 0) = 0.10 := by
    rw [if_pos (by norm_num)]
    norm_num
  have hf : round2 ((1799.98 : ℚ) * (1 - 0.10)) = 1619.98 := by
    rw [round2_eq_of_floor _ 161998 (by norm_num) (by norm_num)]
    norm_num
  have hcat : (if (1619.98 : ℚ) ≥ 500 then "High Value" else "Standard") = "High Value" :=
    if_pos (by norm_num)
  rw [transformRow_accepts ⟨some "ORD001", some "john doe", some "Laptop",
        some "2", some "899.99", some "2026-02-15"⟩ 2 (89999 / 100) ⟨2026, 2, 15⟩
      (by decide) (by decide) pyFloat_899_99 (by norm_num) (by decide) (by decide),
    enrichRow_eval ⟨some "ORD001", some "john doe", some "Laptop",
        some "2", some "899.99", some "2026-02-15"⟩ 2 (89999 / 100) ⟨2026, 2, 15⟩
      "ORD001" "John Doe" "Laptop" "2026-02-15" 1799.98 0.10 1619.98 "High Value"
      (by decide) (by decide) (by decide) (by decide) ht hdr hf hcat]
  rfl

/-- Evaluation of the transform on sample row ORD002. -/
lemma transformRow_ord2 :
    transformRow ⟨some "ORD002", some "JANE SMITH", some "Mouse",
      some "5", some "25.50", some "2026-02-16"⟩ = some enriched_ord2 := by
  have ht : round2 (((5 : ℤ) : ℚ) * (51 / 2)) = 127.50 := by
    rw [round2_eq_of_floor _ 12750 (by norm_num) (by norm_num)]
    norm_num
  have hdr : (if (127.50 : ℚ) > 1000 then (1 : ℚ) / 10 else 0) = 0 :=
    if_neg (by norm_num)
  have hf : round2 ((127.50 : ℚ) * (1 - 0)) = 127.50 := by
    rw [round2_eq_of_floor _ 12750 (by norm_num) (by norm_num)]
    norm_num
  have hcat : (if (127.50 : ℚ) ≥ 500 then "High Value" else "Standard") = "Standard" :=
    if_neg (by norm_num)
  rw [transformRow_accepts ⟨some "ORD002", some "JANE SMITH", some "Mouse",
        some "5", some "25.50", some "2026-02-16"⟩ 5 (51 / 2) ⟨2026, 2, 16⟩
      (by decide) (by decide) pyFloat_25_50 (by norm_num) (by decide) (by decide),
    enrichRow_eval ⟨some "ORD002", some "JANE SMITH", some "Mouse",
        some "5", some "25.50", some "2026-02-16"⟩ 5 (51 / 2) ⟨2026, 2, 16⟩
      "ORD002" "Jane Smith" "Mouse" "2026-02-16" 127.50 0 127.50 "Standard"
      (by decide) (by decide) (by decide) (by decide) ht hdr hf hcat]
  rfl

/-- Evaluation of the transform on sample row ORD003. -/
lemma transformRow_ord3 :
    transformRow ⟨some "ORD003", some "alice brown", some "Monitor",
      some "3", some "450.00", some "2026-02-17"⟩ = some enriched_ord3 := by
  have ht : round2 (((3 : ℤ) : ℚ) * 450) = 1350 := by
    rw [round2_eq_of_floor _ 135000 (by norm_num) (by norm_num)]
    norm_num
  have hdr : (if (1350 : ℚ) > 1000 then (1 : ℚ) / 10 else 0) = 0.10 := by
    rw [if_pos (by norm_num)]
    norm_num
  have hf : round2 ((1350 : ℚ) * (1 - 0.10)) = 1215 := by
    rw [round2_eq_of_floor _ 121500 (by norm_num) (by norm_num)]
    norm_num
  have hcat : (if (1215 : ℚ) ≥ 500 then "High Value" else "Standard") = "High Value" :=
    if_pos (by norm_num)
  rw [transformRow_accepts ⟨some "ORD003", some "alice brown", some "Monitor",
        some "3", some "450.00", some "2026-02-17"⟩ 3 450 ⟨2026, 2, 17⟩
      (by decide) (by decide) pyFloat_450_00 (by norm_num) (by decide) (by decide),
    enrichRow_eval ⟨some "ORD003", some "alice brown", some "Monitor",
        some "3", some "450.00", some "2026-02-17"⟩ 3 450 ⟨2026, 2, 17⟩
      "ORD003" "Alice Brown" "Monitor" "2026-02-17" 1350 0.10 1215 "High Value"
      (by decide) (by decide) (by decide) (by decide) ht hdr hf hcat]
  rfl

/-- Evaluation of the transform on sample row ORD004. -/
lemma transformRow_ord4 :
    transformRow ⟨some "ORD004", some "bob wilson", some "Keyboard",
      some "10", some "75.00", some "2026-02-18"⟩ = some enriched_ord4 := by
  have ht : round2 (((10 : ℤ) : ℚ) * 75) = 750 := by
    rw [round2_eq_of_floor _ 75000 (by norm_num) (by norm_num)]
    norm_num
  have hdr : (if (750 : ℚ) > 1000 then (1 : ℚ) / 10 else 0) = 0 :=
    if_neg (by norm_num)
  have hf : round2 ((750 : ℚ) * (1 - 0)) = 750 := by
    rw [round2_eq_of_floor _ 75000 (by norm_num) (by norm_num)]
    norm_num
  have hcat : (if (750 : ℚ) ≥ 500 then "High Value" else "Standard") = "High Value" :=
    if_pos (by norm_num)
  rw [transformRow_accepts ⟨some "ORD004", some "bob wilson", some "Keyboard",
        some "10", some "75.00", some "2026-02-18"⟩ 10 75 ⟨2026, 2, 18⟩
      (by decide) (by decide) pyFloat_75_00 (by norm_num) (by decide) (by decide),
    enrichRow_eval ⟨some "ORD004", some "bob wilson", some "Keyboard",
        some "10", some "75.00", some "2026-02-18"⟩ 10 75 ⟨2026, 2, 18⟩
      "ORD004" "Bob Wilson" "Keyboard" "2026-02-18" 750 0 750 "High Value"
      (by decide) (by decide) (by decide) (by decide) ht hdr hf hcat]
  rfl

/-- Evaluation of the transform on sample row ORD005. -/
lemma transformRow_ord5 :
    transformRow ⟨some "ORD005", some "john doe", some "Desk",
      some "1", some "599.99", some "2026-02-20"⟩ = some enriched_ord5 := by
  have ht : round2 (((1 : ℤ) : ℚ) * (59999 / 100)) = 599.99 := by
    rw [round2_eq_of_floor _ 59999 (by norm_num) (by norm_num)]
    norm_num
  have hdr : (if (599.99 : ℚ) > 1000 then (1 : ℚ) / 10 else 0) = 0 :=
    if_neg (by norm_num)
  have hf : round2 ((599.99 : ℚ) * (1 - 0)) = 599.99 := by
    rw [round2_eq_of_floor _ 59999 (by norm_num) (by norm_num)]
    norm_num
  have hcat : (if (599.99 : ℚ) ≥ 500 then "High Value" else "Standard") = "High Value" :=
    if_pos (by norm_num)
  rw [transformRow_accepts ⟨some "ORD005", some "john doe", some "Desk",
        some "1", some "599.99", some "2026-02-20"⟩ 1 (59999 / 100) ⟨2026, 2, 20⟩
      (by decide) (by decide) pyFloat_599_99 (by norm_num) (by decide) (by decide),
    enrichRow_eval ⟨some "ORD005", some "john doe", some "Desk",
        some "1", some "599.99", some "2026-02-20"⟩ 1 (59999 / 100) ⟨2026, 2, 20⟩
      "ORD005" "John Doe" "Desk" "2026-02-20" 599.99 0 599.99 "High Value"
      (by decide) (by decide) (by decide) (by decide) ht hdr hf hcat]
  rfl

/-- Evaluation of the transform on the invalid sample row (quantity -1). -/
lemma transformRow_invalid :
    transformRow ⟨some "INVALID", some "test", some "Bad",
      some "-1", some "0", some "2026-02-21"⟩ = none := by
  apply transformRow_rejects
  refine Or.inr (Or.inr (Or.inl ⟨-1, by decide, by decide⟩))

/-- Claim C1: a record whose `order_id` is non-empty after trimming, whose
`quantity` parses as an integer > 0, whose `price` parses as a float > 0,
and whose `order_date` parses against `YYYY-MM-DD`, is accepted by
`transform_sales_data`, appears exactly once in the output at the position
of its occurrence (so surviving records keep their relative input order),
and carries `total_amount = round(quantity * price, 2)`. -/
theorem C1_valid_row_kept_once (raw₁ raw₂ : List RawRecord) (row : RawRecord)
    (q : ℤ) (p : ℚ) (dt : PyDate)
    (hq : pyInt (row.quantity.getD "0") = some q) (hq0 : 0 < q)
    (hp : pyFloat (row.price.getD "0") = some p) (hp0 : 0 < p)
    (hid : pyStrip (row.order_id.getD "") ≠ "")
    (hd : parseDate (pyStrip (row.order_date.getD "")) = some dt) :
    ∃ e, transformRow row = some e ∧
      e.total_amount = round2 ((q : ℚ) * p) ∧
      transform_sales_data (raw₁ ++ row :: raw₂) =
        transform_sales_data raw₁ ++ e :: transform_sales_data raw₂ := by
  refine ⟨enrichRow row q p dt,
    transformRow_accepts row q p dt hq hq0 hp hp0 hid hd, rfl, ?_⟩
  unfold transform_sales_data
  rw [List.filterMap_append,
    List.filterMap_cons_some (transformRow_accepts row q p dt hq hq0 hp hp0 hid hd)]

/-- Witness for C1 at the first sample row. -/
theorem C1_witness :
    ∃ e, transformRow ⟨some "ORD001", some "john doe", some "Laptop",
        some "2", some "899.99", some "2026-02-15"⟩ = some e ∧
      e.total_amount = round2 (((2 : ℤ) : ℚ) * (89999 / 100)) ∧
      transform_sales_data ([] ++ ⟨some "ORD001", some "john doe", some "Laptop",
        some "2", some "899.99", some "2026-02-15"⟩ :: []) =
        transform_sales_data [] ++ e :: transform_sales_data [] :=
  C1_valid_row_kept_once [] [] _ 2 (89999 / 100) ⟨2026, 2, 15⟩
    (by decide) (by decide) pyFloat_899_99 (by norm_num) (by decide) (by decide)

/-- Claim C2: for every accepted record, `discount_rate` is `0.10` iff
`total_amount > 1000`, and `0.0` otherwise; in particular
`total_amount = 1000` maps to `0.0`. -/
theorem C2_discount_rate_boundary (row : RawRecord) (e : Enriched)
    (h : transformRow row = some e) :
    (e.discount_rate = 0.10 ↔ e.total_amount > 1000) ∧
    (¬ e.total_amount > 1000 → e.discount_rate = 0) ∧
    (e.total_amount = 1000 → e.discount_rate = 0) := by
  obtain ⟨-, hd, -, -⟩ := transformRow_some_shape row e h
  refine ⟨⟨?_, ?_⟩, ?_, ?_⟩
  · intro h10
    by_contra hng
    rw [hd, if_neg hng] at h10
    norm_num at h10
  · intro hgt
    rw [hd, if_pos hgt]
    norm_num
  · intro hng
    rw [hd, if_neg hng]
  · intro he
    have hng : ¬ e.total_amount > 1000 := by
      rw [he]
      norm_num
    rw [hd, if_neg hng]

/-- Witness for C2 at the ORD002 sample row (total 127.50, no discount). -/
theorem C2_witness :
    (enriched_ord2.discount_rate = 0.10 ↔ enriched_ord2.total_amount > 1000) ∧
    (¬ enriched_ord2.total_amount > 1000 → enriched_ord2.discount_rate = 0) ∧
    (enriched_ord2.total_amount = 1000 → enriched_ord2.discount_rate = 0) :=
  C2_discount_rate_boundary
    ⟨some "ORD002", some "JANE SMITH", some "Mouse", some "5", some "25.50",
      some "2026-02-16"⟩ enriched_ord2 transformRow_ord2

/-- Claim C3: for every accepted record, `final_amount` is
`round(total_amount * (1 - discount_rate), 2)` and `category` is
`"High Value"` iff `final_amount ≥ 500`, else `"Standard"`; in particular
`final_amount = 500` maps to `"High Value"`. -/
theorem C3_category_boundary (row : RawRecord) (e : Enriched)
    (h : transformRow row = some e) :
    e.final_amount = round2 (e.total_amount * (1 - e.discount_rate)) ∧
    (e.category = "High Value" ↔ e.final_amount ≥ 500) ∧
    (¬ e.final_amount ≥ 500 → e.category = "Standard") ∧
    (e.final_amount = 500 → e.category = "High Value") := by
  obtain ⟨-, -, hf, hc⟩ := transformRow_some_shape row e h
  refine ⟨hf, ⟨?_, ?_⟩, ?_, ?_⟩
  · intro hhv
    by_contra hng
    rw [hc, if_neg hng] at hhv
    exact absurd hhv (by decide)
  · intro hge
    rw [hc, if_pos hge]
  · intro hng
    rw [hc, if_neg hng]
  · intro h500
    rw [hc, if_pos (le_of_eq h500.symm)]

/-- Witness for C3 at the ORD001 sample row (final 1619.98, High Value). -/
theorem C3_witness :
    enriched_ord1.final_amount =
      round2 (enriched_ord1.total_amount * (1 - enriched_ord1.discount_rate)) ∧
    (enriched_ord1.category = "High Value" ↔ enriched_ord1.final_amount ≥ 500) ∧
    (¬ enriched_ord1.final_amount ≥ 500 → enriched_ord1.category = "Standard") ∧
    (enriched_ord1.final_amount = 500 → enriched_ord1.category = "High Value") :=
  C3_category_boundary
    ⟨some "ORD001", some "john doe", some "Laptop", some "2", some "899.99",
      some "2026-02-15"⟩ enriched_ord1 transformRow_ord1

/-- Claim C4: the transform never aborts; rows with an empty `order_id`,
non-positive `quantity` or `price`, or unparseable numeric/date fields are
absent from the output, and the output count is the input count minus the
rejected count. -/
theorem C4_invalid_rows_dropped :
    (∀ row : RawRecord,
        (pyStrip (row.order_id.getD "") = "" ∨
         pyInt (row.quantity.getD "0") = none ∨
         (∃ q, pyInt (row.quantity.getD "0") = some q ∧ q ≤ 0) ∨
         pyFloat (row.price.getD "0") = none ∨
         (∃ p, pyFloat (row.price.getD "0") = some p ∧ p ≤ 0) ∨
         parseDate (pyStrip (row.order_date.getD "")) = none) →
        transformRow row = none) ∧
    (∀ raw : List RawRecord,
        (transform_sales_data raw).length =
          raw.length - raw.countP (fun r => (transformRow r).isNone)) := by
  constructor
  · exact transformRow_rejects
  · intro raw
    have := transform_length_add raw
    omega

/-- Witness for C4 at the invalid sample row and the sample batch. -/
theorem C4_witness :
    transformRow ⟨some "INVALID", some "test", some "Bad", some "-1", some "0",
      some "2026-02-21"⟩ = none ∧
    (transform_sales_data sample_rows).length =
      sample_rows.length - sample_rows.countP (fun r => (transformRow r).isNone) :=
  ⟨C4_invalid_rows_dropped.1 _ (Or.inr (Or.inr (Or.inl ⟨-1, by decide, by decide⟩))),
   C4_invalid_rows_dropped.2 sample_rows⟩

/-- Claim C6: the transform on the six sample rows yields the five expected
enriched records; ORD001 has total 1799.98, discount 0.10, final 1619.98,
High Value; ORD002 has total 127.50, discount 0, final 127.50, Standard. -/
theorem C6_sample_run :
    transform_sales_data sample_rows =
      [enriched_ord1, enriched_ord2, enriched_ord3, enriched_ord4, enriched_ord5] ∧
    (transform_sales_data sample_rows).length = 5 ∧
    enriched_ord1.total_amount = 1799.98 ∧ enriched_ord1.discount_rate = 0.10 ∧
    enriched_ord1.final_amount = 1619.98 ∧ enriched_ord1.category = "High Value" ∧
    enriched_ord2.total_amount = 127.50 ∧ enriched_ord2.discount_rate = 0 ∧
    enriched_ord2.final_amount = 127.50 ∧ enriched_ord2.category = "Standard" := by
  have hmain : transform_sales_data sample_rows =
      [enriched_ord1, enriched_ord2, enriched_ord3, enriched_ord4, enriched_ord5] := by
    unfold transform_sales_data sample_rows
    rw [List.filterMap_cons_some transformRow_ord1,
      List.filterMap_cons_some transformRow_ord2,
      List.filterMap_cons_some transformRow_ord3,
      List.filterMap_cons_some transformRow_ord4,
      List.filterMap_cons_some transformRow_ord5,
      List.filterMap_cons_none transformRow_invalid,
      List.filterMap_nil]
  exact ⟨hmain, by rw [hmain]; rfl, rfl, rfl, rfl, rfl, rfl, rfl, rfl, rfl⟩

/-- Claim C10: a missing or whitespace-only `customer_name` does not cause
rejection; a missing one yields customer `"Unknown"`, a present one is
stripped and title-cased; an empty `product` does not cause rejection
either. -/
theorem C10_customer_default (row : RawRecord) (q : ℤ) (p : ℚ) (dt : PyDate)
    (hq : pyInt (row.quantity.getD "0") = some q) (hq0 : 0 < q)
    (hp : pyFloat (row.price.getD "0") = some p) (hp0 : 0 < p)
    (hid : pyStrip (row.order_id.getD "") ≠ "")
    (hd : parseDate (pyStrip (row.order_date.getD "")) = some dt) :
    ∃ e, transformRow row = some e ∧
      e.customer = pyTitle (pyStrip (row.customer_name.getD "Unknown")) ∧
      (row.customer_name = none → e.customer = "Unknown") ∧
      e.product = pyStrip (row.product.getD "") := by
  refine ⟨enrichRow row q p dt,
    transformRow_accepts row q p dt hq hq0 hp hp0 hid hd, rfl, ?_, rfl⟩
  intro hnone
  show pyTitle (pyStrip (row.customer_name.getD "Unknown")) = "Unknown"
  rw [hnone]
  decide

/-- Witness for C10 at a row with no `customer_name` and empty `product`. -/
theorem C10_witness :
    ∃ e, transformRow ⟨some "ORD009", none, some "", some "2", some "899.99",
        some "2026-02-15"⟩ = some e ∧
      e.customer = pyTitle (pyStrip ((none : Option String).getD "Unknown")) ∧
      ((none : Option String) = none → e.customer = "Unknown") ∧
      e.product = pyStrip ((some "").getD "") :=
  C10_customer_default _ 2 (89999 / 100) ⟨2026, 2, 15⟩
    (by decide) (by decide) pyFloat_899_99 (by norm_num) (by decide) (by decide)

/-- The metadata steps never error: they return the state with the dataset
and table present (inserting only when absent). -/
lemma ensure_dataset_and_table_ok (st : BQState) (d t : String) :
    ensure_dataset_and_table st d t =
      Except.ok { st with datasets := insert d st.datasets,
                          tables := insert (d, t) st.tables } := by
  unfold ensure_dataset_and_table ensure_dataset ensure_table get_dataset
    get_table create_dataset create_table
  by_cases h1 : d ∈ st.datasets
  · by_cases h2 : (d, t) ∈ st.tables
    · simp [h1, h2, Finset.insert_eq_self.mpr h1, Finset.insert_eq_self.mpr h2]
    · simp [h1, h2, Finset.insert_eq_self.mpr h1]
  · by_cases h2 : (d, t) ∈ st.tables
    · simp [h1, h2, Finset.insert_eq_self.mpr h2]
    · simp [h1, h2]

/-- Claim C5 counterexample: in `etl_to_bigquery` (3a.ETL.py) the
`loaded_at` stamp is assigned per-row during the transform loop, one clock
reading per row, so with a clock that advances between calls the three
records of one batch carry three different `loaded_at` values — the claim
that every pipeline stamps the whole batch with one shared value fails. -/
theorem C5_counterexample :
    (stamp_rows_3a sales_data_3a (fun n => Nat.repr n) 0).map
        StampedRow3a.loaded_at = ["0", "1", "2"] ∧
    ¬ (∀ x ∈ stamp_rows_3a sales_data_3a (fun n => Nat.repr n) 0,
        ∀ y ∈ stamp_rows_3a sales_data_3a (fun n => Nat.repr n) 0,
        x.loaded_at = y.loaded_at) := by
  have hlist : stamp_rows_3a sales_data_3a (fun n => Nat.repr n) 0 =
      [⟨"ORD001", "Alice", 150, "0"⟩, ⟨"ORD002", "Bob", 401 / 2, "1"⟩,
       ⟨"ORD003", "Alice", 301 / 4, "2"⟩] := rfl
  refine ⟨rfl, fun hall => ?_⟩
  rw [hlist] at hall
  have h := hall _ (List.mem_cons_self _ _) _
    (List.mem_cons_of_mem _ (List.mem_cons_self _ _))
  exact absurd h (by decide)

/-- Claim C5 (amended): in the CSV pipeline's loader (3b.ETL.py) the batch
is stamped with a single clock reading taken once at load time, so every
record of the batch carries the same `loaded_at`; the simple pipeline
(3a.ETL.py) instead stamps per-row during its transform loop and its rows
can differ (see the counterexample). -/
theorem C5_uniform_stamp_3b (st : BQState) (data : List Enriched)
    (d t : String) (clock : Nat → String) (x y : LoadedRecord)
    (hx : x ∈ stamp_batch data (clock 0))
    (hy : y ∈ stamp_batch data (clock 0)) :
    x.loaded_at = clock 0 ∧ x.loaded_at = y.loaded_at ∧
    (load_to_bigquery st data d t clock (.ok ()) (.ok ())).1.rows =
      st.rows ++ stamp_batch data (clock 0) := by
  simp only [stamp_batch] at hx hy
  obtain ⟨r, hr, rfl⟩ := List.mem_map.mp hx
  obtain ⟨r2, hr2, rfl⟩ := List.mem_map.mp hy
  refine ⟨rfl, rfl, ?_⟩
  unfold load_to_bigquery
  rw [ensure_dataset_and_table_ok]

/-- Witness for C5 (amended) at a one-record batch and a constant clock. -/
theorem C5_witness :
    (⟨enriched_ord1, "0"⟩ : LoadedRecord).loaded_at = "0" ∧
    (⟨enriched_ord1, "0"⟩ : LoadedRecord).loaded_at =
      (⟨enriched_ord1, "0"⟩ : LoadedRecord).loaded_at ∧
    (load_to_bigquery ⟨∅, ∅, []⟩ [enriched_ord1] "sales_data" "sales"
        (fun _ => "0") (.ok ()) (.ok ())).1.rows =
      (⟨∅, ∅, []⟩ : BQState).rows ++ stamp_batch [enriched_ord1] "0" :=
  C5_uniform_stamp_3b ⟨∅, ∅, []⟩ [enriched_ord1] "sales_data" "sales"
    (fun _ => "0") ⟨enriched_ord1, "0"⟩ ⟨enriched_ord1, "0"⟩
    (by simp [stamp_batch]) (by simp [stamp_batch])

/-- Claim C7: dataset and table creation are idempotent — for any
destination state, running the two ensure steps twice in sequence raises no
error, the second pass is a no-op, exactly one copy of the dataset and of
the table exists afterwards, and when both resources already exist the
first pass is a no-op too. -/
theorem C7_ensure_idempotent (st : BQState) (d t : String) :
    ∃ st1, ensure_dataset_and_table st d t = Except.ok st1 ∧
      ensure_dataset_and_table st1 d t = Except.ok st1 ∧
      (st1.datasets.filter (fun x => x = d)).card = 1 ∧
      (st1.tables.filter (fun x => x = (d, t))).card = 1 ∧
      (d ∈ st.datasets → (d, t) ∈ st.tables → st1 = st) := by
  refine ⟨_, ensure_dataset_and_table_ok st d t, ?_, ?_, ?_, ?_⟩
  · rw [ensure_dataset_and_table_ok]
    simp [Finset.insert_idem]
  · simp [Finset.filter_eq']
  · simp [Finset.filter_eq']
  · intro h1 h2
    simp [Finset.insert_eq_self.mpr h1, Finset.insert_eq_self.mpr h2]

/-- Witness for C7 at the empty destination state. -/
theorem C7_witness :
    ∃ st1, ensure_dataset_and_table ⟨∅, ∅, []⟩ "sales_data" "sales" =
        Except.ok st1 ∧
      ensure_dataset_and_table st1 "sales_data" "sales" = Except.ok st1 ∧
      (st1.datasets.filter (fun x => x = "sales_data")).card = 1 ∧
      (st1.tables.filter (fun x => x = ("sales_data", "sales"))).card = 1 ∧
      ("sales_data" ∈ (⟨∅, ∅, []⟩ : BQState).datasets →
        ("sales_data", "sales") ∈ (⟨∅, ∅, []⟩ : BQState).tables →
        st1 = ⟨∅, ∅, []⟩) :=
  C7_ensure_idempotent ⟨∅, ∅, []⟩ "sales_data" "sales"

/-- Claim C8 counterexample: the MSSQL extractor (2a.EL.py) does not close
its connection on the failure path — starting with no open connections, a
failing `read_sql` propagates the error while one connection stays open. -/
theorem C8_counterexample :
    (extract_2a (.error ()) 0).1 = .error () ∧
    (extract_2a (.error ()) 0).2 = 1 ∧ (1 : Nat) ≠ 0 :=
  ⟨rfl, rfl, by decide⟩

/-- Claim C8 (amended): the CSV extractor (3b.ETL.py) releases its file
handle on every path, success or failure, and the MSSQL extractor
(2a.EL.py) releases its connection only on the success path — on a failing
read the connection count stays one above the initial count. -/
theorem C8_release_paths :
    (∀ r : Except Unit (List RawRecord), ∀ h0 : Nat,
        (extract_sales_data r h0).2 = h0) ∧
    (∀ h0 : Nat, (extract_2a (.ok ()) h0).2 = h0) ∧
    (∀ h0 : Nat, (extract_2a (.error ()) h0).2 = h0 + 1) := by
  refine ⟨fun r h0 => ?_, fun h0 => rfl, fun h0 => rfl⟩
  cases r <;> rfl

/-- Claim C9: when the append job succeeds and the post-load report query
fails, `load_to_bigquery` as a whole fails with the report error, yet the
appended rows remain in the destination. -/
theorem C9_report_failure_fatal (st : BQState) (data : List Enriched)
    (d t : String) (clock : Nat → String) :
    (load_to_bigquery st data d t clock (.ok ()) (.error ())).2 =
      Except.error RunErr.report ∧
    (load_to_bigquery st data d t clock (.ok ()) (.error ())).1.rows =
      st.rows ++ stamp_batch data (clock 0) := by
  unfold load_to_bigquery
  rw [ensure_dataset_and_table_ok]
  exact ⟨rfl, rfl⟩
